import Mathlib

/-!
Verification of the emission-dashboard analytics engine
(`src/data_simulation.py` and its callers) against its natural-language
specification.  The Python code is shallowly embedded: pandas DataFrames
become `List Record`, pandas/NumPy floats become `ℚ` (exact arithmetic),
`pd.Timestamp` values become `ℤ` nanoseconds since the epoch, and fallible
code returns `Except`.
-/

namespace Emission

/-- `ZONES = ["ECA", "Non-ECA"]` (data_simulation.py line 13).  The data
model fixes `zone` to this two-element enumeration. -/
inductive Zone where
  | ECA
  | NonECA
deriving DecidableEq, Repr

/-- `FUEL_TYPES = ["HFO", "MGO", "LNG", "Hybrid"]` (line 14). -/
inductive Fuel where
  | HFO
  | MGO
  | LNG
  | Hybrid
deriving DecidableEq, Repr

/-- `VESSEL_TYPES = ["Bulk Carrier", "Container", "Tanker", "Ro-Ro",
"Offshore"]` (line 15). -/
inductive VType where
  | BulkCarrier
  | Container
  | Tanker
  | RoRo
  | Offshore
deriving DecidableEq, Repr

/-- The string label of a zone, as it appears in the `Zone` column. -/
def Zone.label : Zone → String
  | .ECA => "ECA"
  | .NonECA => "Non-ECA"

/-- The string label of a fuel type, as it appears in the `Fuel_Type`
column. -/
def Fuel.label : Fuel → String
  | .HFO => "HFO"
  | .MGO => "MGO"
  | .LNG => "LNG"
  | .Hybrid => "Hybrid"

/-- `DEFAULT_ALERT_THRESHOLD = 15.0` (line 16). -/
def DEFAULT_ALERT_THRESHOLD : ℚ := 15

/-- One nanosecond-count per day; pandas timestamps have nanosecond
resolution, so `pd.Timedelta(days=1)` is this many units. -/
def nsPerDay : ℤ := 86400000000000

/-- `pd.Timedelta(seconds=1)` in nanosecond units. -/
def nsPerSec : ℤ := 1000000000

/-- One row of the vessel DataFrame built in `generate_vessel_dataframe`
(lines 60–75 plus the derived `Emission_Intensity` column of line 79).
Floats are embedded as `ℚ`; `Date` is `ℤ` nanoseconds; the
`Emission_Intensity` column is `Option ℚ` because the source writes NaN
(`replace(0, np.nan)`) when `Dwell_Time_hr` is 0.  The derived `Month`
column (line 80) is a pure function of `date` and is not consulted by any
property verified here, so it is not carried as a field. -/
structure Record where
  imo_number : ℤ
  vessel_name : String
  zone : Zone
  fuel_type : Fuel
  vessel_type : VType
  co2_tons : ℚ
  sox_tons : ℚ
  nox_tons : ℚ
  speed_knots : ℚ
  dwell_time_hr : ℚ
  compliance_flag : Bool
  date : ℤ
  lat : ℚ
  lon : ℚ
  emission_intensity : Option ℚ
deriving DecidableEq, Repr

/-- `FilterSet` (lines 19–25).  The source field `end` is a Lean keyword
and is rendered `endTs`.  `zones`, `vessel_types`, `fuel_types` are the
iterables handed to `Series.isin`. -/
structure FilterSet where
  start : ℤ
  endTs : ℤ
  zones : List Zone
  vessel_types : List VType
  fuel_types : List Fuel
deriving DecidableEq, Repr

/-- The boolean mask of `apply_filters` (lines 96–102), evaluated on one
row: `Date >= start`, `Date <= end + 1 day - 1 second`, and the three
`isin` membership tests. -/
def filterMask (filters : FilterSet) (r : Record) : Bool :=
  decide (filters.start ≤ r.date)
    && decide (r.date ≤ filters.endTs + nsPerDay - nsPerSec)
    && decide (r.zone ∈ filters.zones)
    && decide (r.vessel_type ∈ filters.vessel_types)
    && decide (r.fuel_type ∈ filters.fuel_types)

/-- `apply_filters` (lines 95–103): build the row mask, then `df.loc[mask]`
selects, in original order, the rows whose mask entry is `True`; `.copy()`
returns a fresh frame with the selected rows unchanged. -/
def apply_filters (df : List Record) (filters : FilterSet) : List Record :=
  (df.zip (df.map (filterMask filters))).filterMap
    (fun rb => if rb.2 then some rb.1 else none)

theorem apply_filters_eq_filter (df : List Record) (filters : FilterSet) :
    apply_filters df filters = df.filter (filterMask filters) := by
  unfold apply_filters
  induction df with
  | nil => rfl
  | cons r rest ih =>
      simp only [List.map_cons, List.zip_cons_cons, List.filterMap_cons,
        List.filter_cons]
      cases h : filterMask filters r <;> simp [h, ih]

/-- Insert a record into a list so that, reading left to right, the record
lands in front of the first element whose `CO2_tons` is not smaller.
Folding this over a list is a stable ascending insertion sort: an element
is never moved past an element with an equal key. -/
def insertByCo2 (r : Record) : List Record → List Record
  | [] => [r]
  | x :: xs => if r.co2_tons ≤ x.co2_tons then r :: x :: xs else x :: insertByCo2 r xs

/-- Stable ascending sort by `CO2_tons`.  `Series.argsort` as used by
pandas `sort_values` is NumPy's sort of the key column; on the row counts
exercised here it is order-preserving on equal keys, which this stable
insertion sort reproduces. -/
def sortByCo2Asc : List Record → List Record
  | [] => []
  | x :: xs => insertByCo2 x (sortByCo2Asc xs)

/-- `DataFrame.sort_values("CO2_tons", ascending=False)`.  pandas
implements a descending sort by taking the ascending `argsort` of the key
and reversing the whole indexer (`nargsort`: `if not ascending: indexer =
indexer[::-1]`), so rows with equal keys come out in reverse of their
input order. -/
def sort_values_co2_desc (df : List Record) : List Record :=
  (sortByCo2Asc df).reverse

theorem insertByCo2_perm (r : Record) (l : List Record) :
    List.Perm (insertByCo2 r l) (r :: l) := by
  induction l with
  | nil => simp [insertByCo2]
  | cons x xs ih =>
      unfold insertByCo2
      by_cases h : r.co2_tons ≤ x.co2_tons
      · simp [h]
      · simp only [h, if_false]
        exact (ih.cons x).trans (List.Perm.swap r x xs)

theorem sortByCo2Asc_perm (l : List Record) :
    List.Perm (sortByCo2Asc l) l := by
  induction l with
  | nil => simp [sortByCo2Asc]
  | cons x xs ih =>
      exact (insertByCo2_perm x (sortByCo2Asc xs)).trans (ih.cons x)

theorem insertByCo2_pairwise (r : Record) (l : List Record)
    (h : l.Pairwise (fun a b => a.co2_tons ≤ b.co2_tons)) :
    (insertByCo2 r l).Pairwise (fun a b => a.co2_tons ≤ b.co2_tons) := by
  induction l with
  | nil => simp [insertByCo2]
  | cons x xs ih =>
      rcases List.pairwise_cons.mp h with ⟨hx, hxs⟩
      unfold insertByCo2
      by_cases hr : r.co2_tons ≤ x.co2_tons
      · rw [if_pos hr]
        refine List.pairwise_cons.mpr ⟨?_, h⟩
        intro y hy
        rcases List.mem_cons.mp hy with rfl | hy
        · exact hr
        · exact hr.trans (hx y hy)
      · rw [if_neg hr]
        refine List.pairwise_cons.mpr ⟨?_, ih hxs⟩
        intro y hy
        rcases List.mem_cons.mp ((insertByCo2_perm r xs).mem_iff.mp hy) with rfl | hy'
        · exact le_of_not_le hr
        · exact hx y hy'

theorem sortByCo2Asc_pairwise (l : List Record) :
    (sortByCo2Asc l).Pairwise (fun a b => a.co2_tons ≤ b.co2_tons) := by
  induction l with
  | nil => simp [sortByCo2Asc]
  | cons x xs ih => exact insertByCo2_pairwise x _ ih

theorem sort_values_co2_desc_pairwise (df : List Record) :
    (sort_values_co2_desc df).Pairwise (fun a b => b.co2_tons ≤ a.co2_tons) := by
  unfold sort_values_co2_desc
  exact (List.pairwise_reverse).mpr (sortByCo2Asc_pairwise df)

theorem insertByCo2_filter_eq_of_key (r : Record) (l : List Record) (c : ℚ)
    (hr : r.co2_tons = c) :
    (insertByCo2 r l).filter (fun a => decide (a.co2_tons = c)) =
      r :: l.filter (fun a => decide (a.co2_tons = c)) := by
  induction l with
  | nil => simp [insertByCo2, List.filter, hr]
  | cons x xs ih =>
      unfold insertByCo2
      by_cases h : r.co2_tons ≤ x.co2_tons
      · rw [if_pos h]
        simp [List.filter_cons, hr]
      · rw [if_neg h]
        have hx : ¬ x.co2_tons = c := by
          intro hxc
          exact h (le_of_eq (hr.trans hxc.symm))
        simp [List.filter_cons, hx, ih]

theorem insertByCo2_filter_eq_of_ne (r : Record) (l : List Record) (c : ℚ)
    (hr : ¬ r.co2_tons = c) :
    (insertByCo2 r l).filter (fun a => decide (a.co2_tons = c)) =
      l.filter (fun a => decide (a.co2_tons = c)) := by
  induction l with
  | nil => simp [insertByCo2, List.filter, hr]
  | cons x xs ih =>
      unfold insertByCo2
      by_cases h : r.co2_tons ≤ x.co2_tons
      · rw [if_pos h]
        simp [List.filter_cons, hr]
      · rw [if_neg h]
        simp [List.filter_cons, ih]

/-- Stability of the ascending sort, duplicate-safely: the subsequence of
records carrying any fixed key `c` is exactly the input's subsequence with
that key, in the same order. -/
theorem sortByCo2Asc_stable (l : List Record) (c : ℚ) :
    (sortByCo2Asc l).filter (fun a => decide (a.co2_tons = c)) =
      l.filter (fun a => decide (a.co2_tons = c)) := by
  induction l with
  | nil => rfl
  | cons x xs ih =>
      unfold sortByCo2Asc
      by_cases hx : x.co2_tons = c
      · rw [insertByCo2_filter_eq_of_key x _ c hx, ih]
        simp [List.filter, hx]
      · rw [insertByCo2_filter_eq_of_ne x _ c hx, ih]
        simp [List.filter, hx]

/-- `Series.mean()`: sum divided by length (`0/0 = 0` in `ℚ` stands in for
the NaN that pandas produces on an empty column; no comparison against it
is ever `True` in the source, and the embedding never consults the mean of
an empty column either, see `anomalyFlag`). -/
def sampleMean (l : List ℚ) : ℚ := l.sum / (l.length : ℚ)

/-- The numerator of the sample variance: `Σ (x - mean)²`. -/
def sampleVarNum (l : List ℚ) : ℚ := (l.map (fun x => (x - sampleMean l) ^ 2)).sum

/-- `Series.std()` squared.  pandas uses `ddof = 1`: division by `n - 1`,
so the statistic is undefined (NaN) on fewer than 2 values. -/
def sampleVar (l : List ℚ) : ℚ := sampleVarNum l / ((l.length : ℚ) - 1)

/-- Exact decision of `threshold < x` where `threshold = mean + s·std`,
phrased on `d = x - mean`, the sigma `s` and the variance `v = std²`:
`s·√v < d`.  The square root is irrational, so the test is decided by a
sign analysis plus a comparison of squares, which `exceedsSigma_iff` below
proves equivalent to the real-number comparison the source evaluates. -/
def exceedsSigma (d s v : ℚ) : Bool :=
  if v = 0 then decide (0 < d)
  else if 0 ≤ s then decide (0 < d) && decide (s ^ 2 * v < d ^ 2)
  else decide (0 ≤ d) || decide (d ^ 2 < s ^ 2 * v)

theorem exceedsSigma_iff (d s v : ℚ) (hv : 0 ≤ v) :
    exceedsSigma d s v = true ↔ (s : ℝ) * Real.sqrt (v : ℝ) < (d : ℝ) := by
  have hv' : (0 : ℝ) ≤ (v : ℝ) := by exact_mod_cast hv
  have ht0 : 0 ≤ Real.sqrt (v : ℝ) := Real.sqrt_nonneg _
  have ht2 : Real.sqrt (v : ℝ) ^ 2 = (v : ℝ) := Real.sq_sqrt hv'
  unfold exceedsSigma
  split_ifs with h0 hs
  · have hz : Real.sqrt (v : ℝ) = 0 := by
      rw [show ((v : ℝ)) = 0 by exact_mod_cast h0, Real.sqrt_zero]
    rw [hz, mul_zero]
    simp only [decide_eq_true_eq]
    exact_mod_cast Iff.rfl
  · have hvpos : (0 : ℝ) < (v : ℝ) := by
      have : v ≠ 0 := h0
      have : (0 : ℚ) < v := lt_of_le_of_ne hv (Ne.symm this)
      exact_mod_cast this
    have tpos : 0 < Real.sqrt (v : ℝ) := Real.sqrt_pos.mpr hvpos
    have hs' : (0 : ℝ) ≤ (s : ℝ) := by exact_mod_cast hs
    simp only [Bool.and_eq_true, decide_eq_true_eq]
    constructor
    · rintro ⟨hd, hsq⟩
      have hd' : (0 : ℝ) < (d : ℝ) := by exact_mod_cast hd
      have hsq' : (s : ℝ) ^ 2 * (v : ℝ) < (d : ℝ) ^ 2 := by exact_mod_cast hsq
      by_contra hle
      push_neg at hle
      have h1 : (d : ℝ) ^ 2 ≤ ((s : ℝ) * Real.sqrt (v : ℝ)) ^ 2 :=
        pow_le_pow_left₀ hd'.le hle 2
      nlinarith [ht2]
    · intro hlt
      have hd' : (0 : ℝ) < (d : ℝ) := lt_of_le_of_lt (mul_nonneg hs' ht0) hlt
      refine ⟨by exact_mod_cast hd', ?_⟩
      have h1 : ((s : ℝ) * Real.sqrt (v : ℝ)) ^ 2 < (d : ℝ) ^ 2 :=
        pow_lt_pow_left₀ hlt (mul_nonneg hs' ht0) (by norm_num)
      have h2 : (s : ℝ) ^ 2 * (v : ℝ) < (d : ℝ) ^ 2 := by nlinarith [ht2]
      exact_mod_cast h2
  · have hvpos : (0 : ℝ) < (v : ℝ) := by
      have : v ≠ 0 := h0
      have : (0 : ℚ) < v := lt_of_le_of_ne hv (Ne.symm this)
      exact_mod_cast this
    have tpos : 0 < Real.sqrt (v : ℝ) := Real.sqrt_pos.mpr hvpos
    have hs' : (s : ℝ) < 0 := by
      have : s < 0 := lt_of_not_le hs
      exact_mod_cast this
    have stneg : (s : ℝ) * Real.sqrt (v : ℝ) < 0 := mul_neg_of_neg_of_pos hs' tpos
    simp only [Bool.or_eq_true, decide_eq_true_eq]
    constructor
    · rintro (hd | hsq)
      · have hd' : (0 : ℝ) ≤ (d : ℝ) := by exact_mod_cast hd
        linarith
      · have hsq' : (d : ℝ) ^ 2 < (s : ℝ) ^ 2 * (v : ℝ) := by exact_mod_cast hsq
        by_contra hle
        push_neg at hle
        nlinarith [ht2]
    · intro hlt
      by_cases hd : (0 : ℚ) ≤ d
      · exact Or.inl hd
      · have hd' : (d : ℝ) < 0 := by
          have : d < 0 := lt_of_not_le hd
          exact_mod_cast this
        refine Or.inr ?_
        have h2 : (d : ℝ) ^ 2 < (s : ℝ) ^ 2 * (v : ℝ) := by nlinarith [ht2]
        exact_mod_cast h2

/-- The variance is a quotient of a sum of squares by `n - 1 > 0`, so it
is nonnegative on any column with at least two entries. -/
theorem sampleVar_nonneg (l : List ℚ) (h : 2 ≤ l.length) : 0 ≤ sampleVar l := by
  unfold sampleVar
  refine div_nonneg ?_ ?_
  · unfold sampleVarNum
    refine List.sum_nonneg ?_
    intro x hx
    rcases List.mem_map.mp hx with ⟨y, _, rfl⟩
    exact sq_nonneg _
  · have : (2 : ℚ) ≤ (l.length : ℚ) := by exact_mod_cast h
    linarith

/-- Whether one row is flagged by `highlight_anomalies` (lines 197–199):
`df["CO2_tons"] > df["CO2_tons"].mean() + sigma * df["CO2_tons"].std()`.
On a slice with fewer than 2 rows `std()` is NaN (`ddof=1`; the empty
slice also has a NaN mean), a comparison against NaN is `False` for every
row, hence no row is flagged. -/
def anomalyFlag (df : List Record) (sigma : ℚ) (r : Record) : Bool :=
  if df.length < 2 then false
  else
    exceedsSigma (r.co2_tons - sampleMean (df.map Record.co2_tons)) sigma
      (sampleVar (df.map Record.co2_tons))

/-- `highlight_anomalies` (lines 197–210, default `sigma = 1.5`): keep the
rows above the statistical threshold, then sort by `CO2_tons` descending.
The trailing column projection (`[["IMO_Number", ..., "Date"]]`) drops no
row and permutes none, so rows are kept as whole records here. -/
def highlight_anomalies (df : List Record) (sigma : ℚ) : List Record :=
  sort_values_co2_desc (df.filter (anomalyFlag df sigma))

/-- Banker's rounding to an integer, the semantics of Python's built-in
`round` and of `np.round` on a half: ties go to the even neighbour. -/
def roundHalfEven (q : ℚ) : ℤ :=
  if q - ⌊q⌋ < 1 / 2 then ⌊q⌋
  else if 1 / 2 < q - ⌊q⌋ then ⌊q⌋ + 1
  else if 2 ∣ ⌊q⌋ then ⌊q⌋ else ⌊q⌋ + 1

/-- `round(x, digits)`: banker's rounding at `digits` decimal places (the
binary-float representation error of CPython is not modelled; the values
reaching `round` in this code are exact in the embedding). -/
def pyRound (q : ℚ) (digits : ℕ) : ℚ :=
  (roundHalfEven (q * 10 ^ digits) : ℚ) / 10 ^ digits

/-- The `rate` entry of `compliance_summary` (lines 288, 291):
`df["Compliance_Flag"].mean() * 100` guarded by `if not df.empty`, then
rounded to one decimal place. -/
def compliance_summary_rate (df : List Record) : ℚ :=
  pyRound
    (if df.isEmpty then 0
     else ((df.countP Record.compliance_flag : ℚ) / (df.length : ℚ)) * 100) 1

/-- The `alerts` entry of `compliance_summary` (lines 289, 292–294):
`df[df["CO2_tons"] > DEFAULT_ALERT_THRESHOLD]` sorted by `CO2_tons`
descending.  The threshold is the module constant — `compliance_summary`
takes no threshold parameter.  The column projection keeps every row in
order and is not modelled. -/
def compliance_summary_alerts (df : List Record) : List Record :=
  sort_values_co2_desc
    (df.filter (fun r => decide (DEFAULT_ALERT_THRESHOLD < r.co2_tons)))

/-- The dict returned by `compliance_summary` (lines 287–295). -/
structure ComplianceSummary where
  rate : ℚ
  alerts : List Record
deriving DecidableEq, Repr

/-- `compliance_summary` (lines 287–295). -/
def compliance_summary (df : List Record) : ComplianceSummary :=
  { rate := compliance_summary_rate df, alerts := compliance_summary_alerts df }

/-- The Python exception kinds that can surface from the synthesizer,
together with the spec's `InvalidArgument` kind (§7 of the spec; no code
in the repository raises it). -/
inductive ErrKind where
  | keyError
  | valueError
  | invalidArgument
deriving DecidableEq, Repr

/-- An exception: its kind and its message/key. -/
abbrev PyError := ErrKind × String

/-- `np.random.default_rng(seed)` (line 29) is a PRNG whose draw sequence
is a pure function of `seed` alone; the generator is constructed afresh on
every call.  `draw seed pos` models the `pos`-th scalar the stream emits.
A concrete mixing function stands in for PCG64: the claims settled against
the synthesizer concern determinism, state flow and error behaviour, which
depend only on every draw being a fixed function of `(seed, position)`,
not on the sample values themselves. -/
def draw (seed pos : Nat) : Nat :=
  ((seed + 1) * 2654435761 + (pos + 1) * 40503 + (seed + 1) * (pos + 7) * 69069) %
    4294967296

/-- A stand-in for one standard-normal sample, mapped into `[-1, 1]`; use
sites scale and shift it by the documented mean/std exactly as the source
passes `loc`/`scale` to `rng.normal`. -/
def stdDraw (seed pos : Nat) : ℚ := ((draw seed pos % 2001 : ℕ) : ℚ) / 1000 - 1

/-- `np.clip(x, lo, hi)`. -/
def clip (x lo hi : ℚ) : ℚ := min (max x lo) hi

/-- The module-level `faker = Faker()` (line 11) is constructed once per
process, unseeded, and its internal PRNG state advances on every
`faker.color_name()` call (line 59) — it is process-wide mutable state,
independent of the `seed` argument.  The state is modelled as a counter
and the palette draw as a function of that state ('Faker' ships roughly
140 color names; the exact strings are irrelevant, their dependence on the
advancing state is what the claims exercise; the palette entries carry no
space, matching the `.replace(" ", "")` on line 59 being a no-op here). -/
def fakerColorName (st : Nat) : String := "Color" ++ toString (st % 147)

/-- Python `f"{idx:03d}"`. -/
def pad3 (n : Nat) : String :=
  if n < 10 then "00" ++ toString n
  else if n < 100 then "0" ++ toString n
  else toString n

/-- The vectorized rng calls of lines 32–54 each consume one block of
`rows` draws from the single stream, in source order: dates (block 0),
zones (1), fuel types (2), vessel types (3), base CO2 (4), the ECA
multiplier (5), SOx (6), NOx (7), speed (8), dwell (9), the
compliance-flip uniforms (10), lat (11), lon (12); the in-loop
`rng.integers` of line 58 consumes block 13. -/
def fieldDraw (seed rows block i : Nat) : Nat := draw seed (block * rows + i)

/-- Line 36: `rng.choice(ZONES, p=[0.45, 0.55])` for row `i`. -/
def genZone (seed rows i : Nat) : Zone :=
  if fieldDraw seed rows 1 i % 100 < 45 then .ECA else .NonECA

/-- Line 37: `rng.choice(FUEL_TYPES, p=[0.42, 0.32, 0.18, 0.08])`. -/
def genFuel (seed rows i : Nat) : Fuel :=
  let u := fieldDraw seed rows 2 i % 100
  if u < 42 then .HFO else if u < 74 then .MGO else if u < 92 then .LNG else .Hybrid

/-- Line 38: `rng.choice(VESSEL_TYPES)`. -/
def genVType (seed rows i : Nat) : VType :=
  match fieldDraw seed rows 3 i % 5 with
  | 0 => .BulkCarrier
  | 1 => .Container
  | 2 => .Tanker
  | 3 => .RoRo
  | _ => .Offshore

/-- Lines 30–34: a date drawn uniformly from the 30 calendar days ending
at `today`, where `today` is `pd.Timestamp.utcnow().normalize()` — the
midnight timestamp of the wall-clock day of the call. -/
def genDate (today : ℤ) (seed rows i : Nat) : ℤ :=
  today - (29 - (fieldDraw seed rows 0 i % 30 : ℕ) : ℤ) * nsPerDay

/-- Lines 40–42: clipped zone-adjusted CO2, before the 2-decimal rounding
of line 66. -/
def genCo2Raw (seed rows i : Nat) : ℚ :=
  let base := 12.5 + 3.2 * stdDraw seed (4 * rows + i)
  let adj := if genZone seed rows i = .ECA then 1.2 + 0.25 * stdDraw seed (5 * rows + i) else 1
  clip (base * adj) 4.5 24

/-- Lines 49–50: `co2 < DEFAULT_ALERT_THRESHOLD` (on the unrounded
column), then inverted wherever `rng.random() < 0.12`. -/
def genCompliance (seed rows i : Nat) : Bool :=
  let naive := decide (genCo2Raw seed rows i < DEFAULT_ALERT_THRESHOLD)
  if fieldDraw seed rows 10 i % 100 < 12 then !naive else naive

/-- One row of the loop body (lines 57–76) plus the derived
`Emission_Intensity` column of line 79 (computed from the stored, rounded
columns; `replace(0, np.nan)` makes the ratio NaN — `none` — when the
dwell time is 0).  `fakerState` is the faker counter at loop entry; row
`i` uses state `fakerState + i`. -/
def genRecord (seed rows fakerState : Nat) (today : ℤ) (i : Nat) : Record :=
  let co2 := pyRound (genCo2Raw seed rows i) 2
  let dwell := pyRound (clip (48 + 18 * stdDraw seed (9 * rows + i)) 8 110) 1
  { imo_number := 9100000 + (fieldDraw seed rows 13 i % 799999 : ℕ)
    vessel_name := "MV_" ++ fakerColorName (fakerState + i) ++ "_" ++ pad3 i
    zone := genZone seed rows i
    fuel_type := genFuel seed rows i
    vessel_type := genVType seed rows i
    co2_tons := co2
    sox_tons := pyRound (clip (1.05 + 0.35 * stdDraw seed (6 * rows + i)) 0.1 2.4) 2
    nox_tons := pyRound (clip (1.95 + 0.55 * stdDraw seed (7 * rows + i)) 0.5 3.8) 2
    speed_knots := pyRound (clip (13 + 2.8 * stdDraw seed (8 * rows + i)) 7 20) 2
    dwell_time_hr := dwell
    compliance_flag := genCompliance seed rows i
    date := genDate today seed rows i
    lat := pyRound (1.265 + 0.08 * stdDraw seed (11 * rows + i)) 5
    lon := pyRound (103.82 + 0.12 * stdDraw seed (12 * rows + i)) 5
    emission_intensity := if dwell = 0 then none else some (pyRound (co2 / dwell) 3) }

/-- Stable insertion step of the final `df.sort_values("Date")` (line
81). -/
def insertByDate (r : Record) : List Record → List Record
  | [] => [r]
  | x :: xs => if r.date ≤ x.date then r :: x :: xs else x :: insertByDate r xs

/-- Line 81, sorting the frame by `Date` ascending.  (NumPy's default sort
leaves the order of equal dates unspecified; the stable sort is one
concrete choice.  It is immaterial to the claims settled here: the two
generator calls compared under C1 produce identical date columns, hence
identical sort permutations, whichever tie order the sort picks.) -/
def sortByDateAsc : List Record → List Record
  | [] => []
  | x :: xs => insertByDate x (sortByDateAsc xs)

/-- `generate_vessel_dataframe` (lines 28–82).  Beyond `(rows, seed)` the
function reads two pieces of ambient state, made explicit here: the
module-level Faker counter (consumed and advanced by the name loop, one
`color_name()` per row) and the wall clock `today =
pd.Timestamp.utcnow().normalize()` (line 30).  On success it returns the
rows and the advanced Faker counter.  `rows < 0` propagates NumPy's
`ValueError` from `rng.choice(..., size=rows)` (line 32); `rows = 0` runs
the whole body without error until `pd.DataFrame([])` (line 78) builds an
empty *column-less* frame, so the column lookup `df["CO2_tons"]` on line
79 raises `KeyError: 'CO2_tons'`.  No path validates `rows` or raises an
`InvalidArgument`-kinded error. -/
def generate_vessel_dataframe (rows : ℤ) (seed fakerState : Nat) (today : ℤ) :
    Except PyError (List Record × Nat) :=
  if rows < 0 then .error (.valueError, "negative dimensions are not allowed")
  else if rows = 0 then .error (.keyError, "CO2_tons")
  else
    let n := rows.toNat
    .ok (sortByDateAsc ((List.range n).map (genRecord seed n fakerState today)),
      fakerState + n)

/-- The KPI dict of `calculate_kpis` (lines 128–137). -/
structure Kpis where
  total_co2 : ℚ
  avg_co2 : ℚ
  eca_percent : ℚ
  non_eca_percent : ℚ
  compliance_rate : ℚ
  alerts : ℕ
  emission_intensity : ℚ
  eca_weekly_change : ℚ
deriving DecidableEq, Repr

/-- `df["CO2_tons"].sum()`. -/
def sumCo2 (df : List Record) : ℚ := (df.map Record.co2_tons).sum

/-- `df["Date"].max()`: `none` models the NaT of an empty column; every
comparison against NaT is `False` in pandas. -/
def maxDate : List Record → Option ℤ
  | [] => none
  | r :: rest => some (rest.foldl (fun m x => max m x.date) r.date)

/-- Line 108: `df.groupby("IMO_Number")["CO2_tons"].mean().mean()` — the
mean over distinct IMO numbers of each vessel's mean CO2.  (pandas
iterates the groups in sorted key order; a mean is order-independent, so
the distinct keys are taken in first-appearance order here.) -/
def groupMeanCo2 (df : List Record) : ℚ :=
  sampleMean
    (((df.map Record.imo_number).dedup).map
      (fun k =>
        sampleMean ((df.filter (fun r => decide (r.imo_number = k))).map Record.co2_tons)))

/-- `calculate_kpis` (lines 106–137).  Every division the source guards
(`if total_co2`, `if not df.empty`, `if df[...].sum()`, `if eca_prev` —
float truthiness, i.e. non-zero) is guarded identically here, and the
trailing-week windows replicate lines 119–126 with NaT comparisons
evaluating to `False` on the empty frame. -/
def calculate_kpis (df : List Record) : Kpis :=
  let total_co2 := sumCo2 df
  let avg := if df.isEmpty then 0 else groupMeanCo2 df
  let eca_share :=
    if total_co2 = 0 then 0
    else sumCo2 (df.filter (fun r => decide (r.zone = Zone.ECA))) / total_co2 * 100
  let non_eca := if total_co2 = 0 then 0 else 100 - eca_share
  let compliance :=
    if df.isEmpty then 0
    else (df.countP Record.compliance_flag : ℚ) / (df.length : ℚ) * 100
  let sumDwell := (df.map Record.dwell_time_hr).sum
  let intensity := if sumDwell = 0 then 0 else total_co2 / sumDwell * 24
  let m := maxDate df
  let latest :=
    df.filter (fun r =>
      match m with
      | none => false
      | some mx => decide (mx - 6 * nsPerDay ≤ r.date))
  let previous :=
    df.filter (fun r =>
      match m with
      | none => false
      | some mx =>
          decide (r.date < mx - 6 * nsPerDay) && decide (mx - 13 * nsPerDay ≤ r.date))
  let eca_week := sumCo2 (latest.filter (fun r => decide (r.zone = Zone.ECA)))
  let eca_prev := sumCo2 (previous.filter (fun r => decide (r.zone = Zone.ECA)))
  let delta := if eca_prev = 0 then 0 else (eca_week - eca_prev) / eca_prev * 100
  { total_co2 := pyRound total_co2 2
    avg_co2 := pyRound avg 2
    eca_percent := pyRound eca_share 1
    non_eca_percent := pyRound non_eca 1
    compliance_rate := pyRound compliance 1
    alerts := df.countP (fun r => decide (DEFAULT_ALERT_THRESHOLD < r.co2_tons))
    emission_intensity := pyRound intensity 2
    eca_weekly_change := pyRound delta 1 }

/-- All eight (fuel, zone) keys in the order
`df.groupby(["Fuel_Type", "Zone"])` sorts group keys: lexicographically by
the column strings — `"HFO" < "Hybrid" < "LNG" < "MGO"` and
`"ECA" < "Non-ECA"`. -/
def allPairsSorted : List (Fuel × Zone) :=
  [(.HFO, .ECA), (.HFO, .NonECA), (.Hybrid, .ECA), (.Hybrid, .NonECA),
   (.LNG, .ECA), (.LNG, .NonECA), (.MGO, .ECA), (.MGO, .NonECA)]

/-- Whether a (fuel, zone) group is present in the frame (a groupby emits
a row only for key combinations that occur). -/
def pairPresent (df : List Record) (p : Fuel × Zone) : Bool :=
  df.any (fun r => decide (r.fuel_type = p.1) && decide (r.zone = p.2))

/-- The index of `zone_totals` (line 176): one row per occurring (fuel,
zone) pair, in sorted key order. -/
def zoneTotalsKeys (df : List Record) : List (Fuel × Zone) :=
  allPairsSorted.filter (pairPresent df)

/-- The summed `CO2_tons` of one (fuel, zone) group (line 176). -/
def pairSum (df : List Record) (f : Fuel) (z : Zone) : ℚ :=
  sumCo2 (df.filter (fun r => decide (r.fuel_type = f) && decide (r.zone = z)))

/-- `Series.unique()` (line 180): the distinct values in order of first
appearance. -/
def uniqueFirst : List Fuel → List Fuel
  | [] => []
  | x :: xs => x :: uniqueFirst (xs.filter (fun y => decide (y ≠ x)))
termination_by l => l.length
decreasing_by
  simp only [List.length_cons]
  exact Nat.lt_succ_of_le (List.length_filter_le _ _)

/-- `zone_totals["Fuel_Type"].unique().tolist()` (line 180). -/
def fuel_nodes (df : List Record) : List Fuel :=
  uniqueFirst ((zoneTotalsKeys df).map Prod.fst)

/-- The dict returned by `generate_sankey_data` (lines 178, 189). -/
structure SankeyData where
  nodes : List String
  sources : List Nat
  targets : List Nat
  values : List ℚ
deriving DecidableEq, Repr

/-- Lookup in the `node_index` dict (line 183), built by enumerating
`nodes`.  The node labels are pairwise distinct strings, so the dict maps
each name to its unique position — the index of its first occurrence. -/
def idxOf (s : String) : List String → Nat
  | [] => 0
  | x :: xs => if x = s then 0 else idxOf s xs + 1

/-- `f"{row['Zone']} Emissions"` (line 186). -/
def zoneEmissionLabel (z : Zone) : String := z.label ++ " Emissions"

/-- The local `nodes = fuel_nodes + zone_nodes` of line 182: the occurring
fuel labels followed by the two fixed zone labels of line 181 (both zone
labels are appended unconditionally). -/
def sankeyNodes (df : List Record) : List String :=
  (fuel_nodes df).map Fuel.label ++ ["ECA Emissions", "Non-ECA Emissions"]

/-- `generate_sankey_data` (lines 175–189): group by (fuel, zone) and sum
CO2; on an empty groupby return the explicitly empty dict (lines 177–178);
otherwise the parallel edge arrays map each group row to its fuel node
index, its zone node index, and its summed CO2 rounded to 2 decimals
(lines 185–187). -/
def generate_sankey_data (df : List Record) : SankeyData :=
  if (zoneTotalsKeys df).isEmpty then
    { nodes := [], sources := [], targets := [], values := [] }
  else
    { nodes := sankeyNodes df
      sources := (zoneTotalsKeys df).map (fun p => idxOf p.1.label (sankeyNodes df))
      targets :=
        (zoneTotalsKeys df).map (fun p => idxOf (zoneEmissionLabel p.2) (sankeyNodes df))
      values := (zoneTotalsKeys df).map (fun p => pyRound (pairSum df p.1 p.2) 2) }

/-- Modelled from the spec: `alerts(Dataset, threshold) -> Dataset` — the
fixed-threshold detector with the runtime-adjustable, caller-supplied
threshold that §4.4/§6 of the spec demand ("not hard-coded into the
algorithm, only defaulted", bounded to `[5, 30]` by the admin panel).  No
function in the repository takes such a parameter: `compliance_summary`
(data_simulation.py lines 287–295) reads the module constant, and the
bounded value the admin panel collects (`components/admin.py` lines
12–19) is written to `st.session_state["co2_threshold"]` and never read
by any computation. -/
def alerts_spec (df : List Record) (threshold : ℚ) : List Record :=
  sort_values_co2_desc (df.filter (fun r => decide (threshold < r.co2_tons)))

/-- A concrete row template used to instantiate theorems on explicit
inputs. -/
def sampleRecord (name : String) (z : Zone) (f : Fuel) (co2 : ℚ) (date : ℤ) : Record :=
  { imo_number := 9100001
    vessel_name := name
    zone := z
    fuel_type := f
    vessel_type := .Tanker
    co2_tons := co2
    sox_tons := 1
    nox_tons := 2
    speed_knots := 13
    dwell_time_hr := 48
    compliance_flag := true
    date := date
    lat := 1.265
    lon := 103.82
    emission_intensity := some (417 / 1000) }

/-- A filter set spanning exactly the epoch day, with every categorical
value admitted. -/
def ceFilter : FilterSet :=
  { start := 0
    endTs := 0
    zones := [Zone.ECA, Zone.NonECA]
    vessel_types := [.BulkCarrier, .Container, .Tanker, .RoRo, .Offshore]
    fuel_types := [.HFO, .MGO, .LNG, .Hybrid] }

/-- A record timestamped in the last nanosecond of `ceFilter`'s end day. -/
def ceRecord : Record := sampleRecord "MV_EndOfDay" .ECA .HFO 10 (nsPerDay - 1)

/-- A record whose CO2 sits between the admin panel's lower bound (5) and
the hard-coded threshold (15). -/
def rLow : Record := sampleRecord "MV_Low" .ECA .HFO 10 0

/-- Two distinct records tied at `CO2_tons = 20`, both above the alert
threshold. -/
def rTie0 : Record := sampleRecord "MV_TieFirst" .ECA .HFO 20 0

/-- See `rTie0`. -/
def rTie1 : Record := sampleRecord "MV_TieSecond" .NonECA .MGO 20 0

/-- A two-record dataset exercising the σ-detector witnesses. -/
def dfW : List Record :=
  [sampleRecord "MV_W0" .ECA .HFO 10 0, sampleRecord "MV_W1" .NonECA .MGO 20 0]

/-- A three-row dataset (fuels HFO and MGO, both zones) for the flow
decomposition witnesses. -/
def dfS : List Record := [rTie0, rTie1, rLow]

theorem mem_allPairsSorted (p : Fuel × Zone) : p ∈ allPairsSorted := by
  rcases p with ⟨f, z⟩
  cases f <;> cases z <;> decide

theorem pairPresent_iff (df : List Record) (p : Fuel × Zone) :
    pairPresent df p = true ↔ ∃ r ∈ df, r.fuel_type = p.1 ∧ r.zone = p.2 := by
  unfold pairPresent
  rw [List.any_eq_true]
  constructor
  · rintro ⟨r, hr, hb⟩
    rw [Bool.and_eq_true, decide_eq_true_eq, decide_eq_true_eq] at hb
    exact ⟨r, hr, hb⟩
  · rintro ⟨r, hr, h1, h2⟩
    exact ⟨r, hr, by rw [Bool.and_eq_true, decide_eq_true_eq, decide_eq_true_eq]; exact ⟨h1, h2⟩⟩

theorem mem_zoneTotalsKeys (df : List Record) (f : Fuel) (z : Zone) :
    (f, z) ∈ zoneTotalsKeys df ↔ ∃ r ∈ df, r.fuel_type = f ∧ r.zone = z := by
  unfold zoneTotalsKeys
  rw [List.mem_filter]
  constructor
  · rintro ⟨-, hp⟩
    exact (pairPresent_iff df (f, z)).mp hp
  · intro h
    exact ⟨mem_allPairsSorted _, (pairPresent_iff df (f, z)).mpr h⟩

theorem mem_uniqueFirst (l : List Fuel) (f : Fuel) : f ∈ uniqueFirst l ↔ f ∈ l := by
  induction l using uniqueFirst.induct with
  | case1 => simp [uniqueFirst]
  | case2 x xs ih =>
      rw [uniqueFirst]
      simp only [List.mem_cons, ih, List.mem_filter, decide_eq_true_eq]
      constructor
      · rintro (rfl | ⟨hf, -⟩)
        · exact Or.inl rfl
        · exact Or.inr hf
      · rintro (rfl | hf)
        · exact Or.inl rfl
        · by_cases hx : f = x
          · exact Or.inl hx
          · exact Or.inr ⟨hf, hx⟩

theorem nodup_uniqueFirst (l : List Fuel) : (uniqueFirst l).Nodup := by
  induction l using uniqueFirst.induct with
  | case1 => simp [uniqueFirst]
  | case2 x xs ih =>
      rw [uniqueFirst]
      refine List.nodup_cons.mpr ⟨?_, ih⟩
      intro hx
      have := (mem_uniqueFirst _ x).mp hx
      rcases List.mem_filter.mp this with ⟨-, hne⟩
      exact (decide_eq_true_eq.mp hne) rfl

theorem idxOf_append_left (s : String) (l1 l2 : List String) (h : s ∈ l1) :
    idxOf s (l1 ++ l2) = idxOf s l1 ∧ idxOf s l1 < l1.length := by
  induction l1 with
  | nil => cases h
  | cons x xs ih =>
      by_cases hx : x = s
      · simp [idxOf, hx]
      · rcases List.mem_cons.mp h with rfl | hs
        · exact absurd rfl hx
        · rcases ih hs with ⟨h1, h2⟩
          simp only [List.cons_append, idxOf, hx, if_false, List.length_cons,
            List.append_eq]
          exact ⟨by rw [h1], Nat.succ_lt_succ h2⟩

theorem idxOf_append_right (s : String) (l1 l2 : List String) (h : s ∉ l1) :
    idxOf s (l1 ++ l2) = l1.length + idxOf s l2 := by
  induction l1 with
  | nil => simp
  | cons x xs ih =>
      have hx : ¬ x = s := fun hxs => h (by rw [hxs]; exact List.mem_cons_self _ _)
      have hs : s ∉ xs := fun hs => h (List.mem_cons_of_mem _ hs)
      simp only [List.cons_append, idxOf, hx, if_false, List.length_cons,
        List.append_eq, ih hs]
      omega

theorem fuelLabel_ne_zoneEmissionLabel (f : Fuel) (z : Zone) :
    Fuel.label f ≠ zoneEmissionLabel z := by
  cases f <;> cases z <;> decide

/-- A nonempty list of positive rationals has a positive sum. -/
theorem sum_pos_of_forall_pos (l : List ℚ) (hne : l ≠ []) (h : ∀ x ∈ l, 0 < x) :
    0 < l.sum := by
  induction l with
  | nil => exact absurd rfl hne
  | cons x xs ih =>
      rw [List.sum_cons]
      rcases List.eq_nil_or_concat xs with rfl | -
      · simpa using h x (List.mem_cons_self _ _)
      · cases xs with
        | nil => simpa using h x (List.mem_cons_self _ _)
        | cons y ys =>
            have hxs : 0 < (y :: ys).sum :=
              ih (by simp) (fun a ha => h a (List.mem_cons_of_mem _ ha))
            have hx := h x (List.mem_cons_self _ _)
            linarith

/-- A sum of integer-hundredths is an integer-hundredth. -/
theorem sum_cent (l : List ℚ) (h : ∀ x ∈ l, ∃ n : ℤ, x = (n : ℚ) / 100) :
    ∃ n : ℤ, l.sum = (n : ℚ) / 100 := by
  induction l with
  | nil => exact ⟨0, by simp⟩
  | cons x xs ih =>
      rcases h x (List.mem_cons_self _ _) with ⟨n, hn⟩
      rcases ih (fun a ha => h a (List.mem_cons_of_mem _ ha)) with ⟨m, hm⟩
      refine ⟨n + m, ?_⟩
      rw [List.sum_cons, hn, hm]
      push_cast
      ring

/-- Banker's rounding leaves integers alone. -/
theorem roundHalfEven_intCast (n : ℤ) : roundHalfEven (n : ℚ) = n := by
  unfold roundHalfEven
  rw [Int.floor_intCast]
  norm_num


/-- `round(x, 2)` is the identity on integer-hundredths. -/
theorem pyRound_cent (q : ℚ) (h : ∃ n : ℤ, q = (n : ℚ) / 100) : pyRound q 2 = q := by
  rcases h with ⟨n, rfl⟩
  unfold pyRound
  have h100 : ((n : ℚ) / 100) * 10 ^ 2 = (n : ℚ) := by
    ring
  rw [h100, roundHalfEven_intCast]
  ring

/-- Pointwise implication of predicates bounds the filtered length. -/
theorem filter_length_mono {α : Type} (l : List α) (p q : α → Bool)
    (h : ∀ a ∈ l, p a = true → q a = true) :
    (l.filter p).length ≤ (l.filter q).length := by
  induction l with
  | nil => simp
  | cons x xs ih =>
      have ih' := ih (fun a ha => h a (List.mem_cons_of_mem _ ha))
      rw [List.filter_cons, List.filter_cons]
      by_cases hp : p x = true
      · rw [hp, h x (List.mem_cons_self _ _) hp]
        simpa using Nat.succ_le_succ ih'
      · cases hq : q x
        · simp only [hp, if_false, Bool.false_eq_true, if_false]
          exact ih'
        · simp only [hp, if_false, if_true]
          exact ih'.trans (by simp)

/-- The descending sort does not change the number of rows. -/
theorem length_sort_values_co2_desc (l : List Record) :
    (sort_values_co2_desc l).length = l.length := by
  unfold sort_values_co2_desc
  rw [List.length_reverse]
  exact (sortByCo2Asc_perm l).length_eq

/-- The descending sort permutes its input. -/
theorem sort_values_co2_desc_perm (l : List Record) :
    List.Perm (sort_values_co2_desc l) l :=
  (List.reverse_perm _).trans (sortByCo2Asc_perm l)

/-- In the descending sort the rows carrying any fixed key come out in
reverse of their input order. -/
theorem sort_values_co2_desc_filter_key (l : List Record) (c : ℚ) :
    (sort_values_co2_desc l).filter (fun a => decide (a.co2_tons = c)) =
      (l.filter (fun a => decide (a.co2_tons = c))).reverse := by
  unfold sort_values_co2_desc
  rw [List.filter_reverse, sortByCo2Asc_stable]

/-- Raising sigma can only unflag rows: a row flagged at `s2` is flagged
at every `s1 ≤ s2`. -/
theorem anomalyFlag_antitone (df : List Record) (s1 s2 : ℚ) (h : s1 ≤ s2)
    (r : Record) (hf : anomalyFlag df s2 r = true) : anomalyFlag df s1 r = true := by
  unfold anomalyFlag at hf ⊢
  by_cases hl : df.length < 2
  · rw [if_pos hl] at hf
    exact absurd hf (by simp)
  · rw [if_neg hl] at hf ⊢
    have hlen : 2 ≤ (df.map Record.co2_tons).length := by
      rw [List.length_map]
      omega
    have hv : 0 ≤ sampleVar (df.map Record.co2_tons) := sampleVar_nonneg _ hlen
    rw [exceedsSigma_iff _ _ _ hv] at hf ⊢
    have hs : (s1 : ℝ) ≤ (s2 : ℝ) := by exact_mod_cast h
    have := mul_le_mul_of_nonneg_right hs
      (Real.sqrt_nonneg ((sampleVar (df.map Record.co2_tons) : ℝ)))
    exact lt_of_le_of_lt this hf

/-- Claim C1 (code bug): determinism of `generate_vessel_dataframe` fails
on the code.  Two in-process calls with identical `(row_count, seed) =
(1, 42)` on the same day do not yield field-by-field identical records:
the first call advances the unseeded module-level Faker from state 0 to 1
(first conjunct), so the second call draws a different `Vessel_Name`
(`MV_Color1_000` instead of `MV_Color0_000`), while every field other
than the vessel name — all drawn from the per-call `default_rng(seed)` —
is identical (fourth conjunct); the produced datasets are not equal
(fifth conjunct). -/
theorem generate_same_seed_second_call_differs :
    (generate_vessel_dataframe 1 42 0 0).toOption.map (fun p => p.2) = some 1 ∧
    (generate_vessel_dataframe 1 42 0 0).toOption.map
        (fun p => p.1.map Record.vessel_name) = some ["MV_Color0_000"] ∧
    (generate_vessel_dataframe 1 42 1 0).toOption.map
        (fun p => p.1.map Record.vessel_name) = some ["MV_Color1_000"] ∧
    (generate_vessel_dataframe 1 42 0 0).toOption.map
        (fun p => p.1.map (fun r => { r with vessel_name := "" })) =
      (generate_vessel_dataframe 1 42 1 0).toOption.map
        (fun p => p.1.map (fun r => { r with vessel_name := "" })) ∧
    (generate_vessel_dataframe 1 42 0 0).toOption.map (fun p => p.1) ≠
      (generate_vessel_dataframe 1 42 1 0).toOption.map (fun p => p.1) := by
  refine ⟨rfl, rfl, rfl, rfl, ?_⟩
  decide

/-- Claim C2 (code bug): `generate` does fail on every `row_count <= 0`,
but not with the spec's `InvalidArgument` kind: `row_count = 0` raises
`KeyError: 'CO2_tons'` (line 79 looks the CO2 column up on the
column-less empty frame that line 78 builds from zero records), and a
negative `row_count` raises NumPy's `ValueError` at `rng.choice`
(line 32). -/
theorem generate_nonpositive_rows_error :
    generate_vessel_dataframe 0 42 0 0 = .error (.keyError, "CO2_tons") ∧
    generate_vessel_dataframe (-1) 42 0 0 =
      .error (.valueError, "negative dimensions are not allowed") ∧
    ErrKind.keyError ≠ ErrKind.invalidArgument ∧
    ErrKind.valueError ≠ ErrKind.invalidArgument :=
  ⟨rfl, rfl, by decide, by decide⟩

/-- Claim C3 (code bug): the alert threshold is not runtime-adjustable.
At threshold 5 — admissible, the admin panel's lower bound — the
spec-modelled detector `alerts_spec` flags the record with `CO2_tons =
10`, but the repository's alert computations, which take no threshold
parameter and compare against the hard-coded `DEFAULT_ALERT_THRESHOLD =
15.0`, flag nothing: `compliance_summary` returns no alert rows and
`calculate_kpis` counts zero alerts. -/
theorem alert_threshold_hard_coded :
    ((5 : ℚ) ≤ 5 ∧ (5 : ℚ) ≤ 30) ∧
    alerts_spec [rLow] 5 = [rLow] ∧
    (compliance_summary [rLow]).alerts = [] ∧
    (calculate_kpis [rLow]).alerts = 0 :=
  ⟨⟨by norm_num, by norm_num⟩, rfl, rfl, rfl⟩

/-- Claim C4, counterexample: a record timestamped in the final second of
the end day (here its last nanosecond) satisfies every requested-set
membership and lies on the end day, yet `apply_filters` drops it — the
mask's upper bound is `end + 1 day - 1 second`, which does not cover the
entire end day. -/
theorem apply_filters_drops_last_second_of_end_day :
    apply_filters [ceRecord] ceFilter = [] ∧
    ceFilter.start ≤ ceRecord.date ∧
    ceFilter.endTs ≤ ceRecord.date ∧ ceRecord.date < ceFilter.endTs + nsPerDay ∧
    ceRecord.zone ∈ ceFilter.zones ∧
    ceRecord.vessel_type ∈ ceFilter.vessel_types ∧
    ceRecord.fuel_type ∈ ceFilter.fuel_types :=
  ⟨rfl, by decide⟩

/-- Claim C4, amended: `apply_filters` keeps exactly the records whose
`Date` lies in `[start, end + 1 day - 1 second]` — the end day up to and
including 23:59:59, excluding the day's final fractional second — and
whose zone, vessel type and fuel type are members of the respective
requested sets; the kept rows form a sublist of the input (original order
preserved, records unchanged). -/
theorem apply_filters_characterization (df : List Record) (F : FilterSet) :
    apply_filters df F = df.filter (filterMask F) ∧
    (apply_filters df F).Sublist df ∧
    (∀ r : Record, filterMask F r = true ↔
      (F.start ≤ r.date ∧ r.date ≤ F.endTs + nsPerDay - nsPerSec ∧
        r.zone ∈ F.zones ∧ r.vessel_type ∈ F.vessel_types ∧
        r.fuel_type ∈ F.fuel_types)) := by
  refine ⟨apply_filters_eq_filter df F, ?_, ?_⟩
  · rw [apply_filters_eq_filter]
    exact List.filter_sublist df
  · intro r
    simp [filterMask, and_assoc]

/-- Claim C5, counterexample: two distinct records tied at `CO2_tons =
20` — both above the fixed threshold — come back from the alert detector
in reverse of their input order, refuting the stable tie-breaking the
claim asserts. -/
theorem alerts_tied_records_reversed :
    compliance_summary_alerts [rTie0, rTie1] = [rTie1, rTie0] ∧
    rTie0 ≠ rTie1 ∧ rTie0.co2_tons = rTie1.co2_tons ∧
    DEFAULT_ALERT_THRESHOLD < rTie0.co2_tons :=
  ⟨rfl, by decide, rfl, by decide⟩

/-- Claim C5, amended: both detectors return exactly the matching records
(a permutation of the matching rows) sorted by `CO2_tons` descending, but
rows with equal `CO2_tons` appear in *reverse* of their original order —
pandas realizes a descending `sort_values` by reversing an ascending
argsort — not in original order. -/
theorem detectors_sorted_desc_ties_reversed (df : List Record) (sigma c : ℚ) :
    (highlight_anomalies df sigma).Pairwise (fun a b => b.co2_tons ≤ a.co2_tons) ∧
    (compliance_summary df).alerts.Pairwise (fun a b => b.co2_tons ≤ a.co2_tons) ∧
    List.Perm (highlight_anomalies df sigma) (df.filter (anomalyFlag df sigma)) ∧
    List.Perm (compliance_summary df).alerts
      (df.filter (fun r => decide (DEFAULT_ALERT_THRESHOLD < r.co2_tons))) ∧
    (highlight_anomalies df sigma).filter (fun a => decide (a.co2_tons = c)) =
      ((df.filter (anomalyFlag df sigma)).filter
        (fun a => decide (a.co2_tons = c))).reverse ∧
    (compliance_summary df).alerts.filter (fun a => decide (a.co2_tons = c)) =
      ((df.filter (fun r => decide (DEFAULT_ALERT_THRESHOLD < r.co2_tons))).filter
        (fun a => decide (a.co2_tons = c))).reverse :=
  ⟨sort_values_co2_desc_pairwise _, sort_values_co2_desc_pairwise _,
    sort_values_co2_desc_perm _, sort_values_co2_desc_perm _,
    sort_values_co2_desc_filter_key _ c, sort_values_co2_desc_filter_key _ c⟩

/-- Claim C6 (confirmed): on the empty dataset `calculate_kpis` returns
normally — every division is guarded by the source's truthiness tests and
the NaT week-window comparisons are false — with every KPI field equal to
zero. -/
theorem calculate_kpis_empty_all_zero :
    calculate_kpis [] =
      { total_co2 := 0, avg_co2 := 0, eca_percent := 0, non_eca_percent := 0,
        compliance_rate := 0, alerts := 0, emission_intensity := 0,
        eca_weekly_change := 0 } := by
  norm_num [calculate_kpis, sumCo2, pyRound, roundHalfEven, maxDate, groupMeanCo2]

/-- Claim C7 (confirmed): on a slice with fewer than 2 records the σ
detector flags nothing for any sigma — pandas' NaN standard deviation
(NaN mean on the empty slice) makes the threshold comparison false on
every row — and returns the empty frame rather than erroring. -/
theorem highlight_anomalies_short_slice_empty (df : List Record) (sigma : ℚ)
    (h : df.length < 2) : highlight_anomalies df sigma = [] := by
  have hflag : df.filter (anomalyFlag df sigma) = [] := by
    rw [List.filter_eq_nil_iff]
    intro r _
    unfold anomalyFlag
    rw [if_pos h]
    simp
  rw [highlight_anomalies, hflag]
  rfl

/-- Witness for C7: a concrete one-row slice at the default sigma 1.5. -/
theorem highlight_anomalies_short_slice_empty_witness :
    ([rLow] : List Record).length < 2 ∧ highlight_anomalies [rLow] (3 / 2) = [] :=
  ⟨by decide, highlight_anomalies_short_slice_empty [rLow] (3 / 2) (by decide)⟩

/-- Claim C9 (confirmed): for `s1 ≤ s2` the σ detector flags at most as
many rows at `s2` as at `s1` — the threshold `mean + sigma·std` is
monotone in sigma because the standard deviation is nonnegative. -/
theorem highlight_anomalies_monotone_sigma (df : List Record) (s1 s2 : ℚ)
    (h : s1 ≤ s2) :
    (highlight_anomalies df s2).length ≤ (highlight_anomalies df s1).length := by
  unfold highlight_anomalies
  rw [length_sort_values_co2_desc, length_sort_values_co2_desc]
  exact filter_length_mono df _ _ (fun r _ hf => anomalyFlag_antitone df s1 s2 h r hf)

/-- Witness for C9 at a concrete two-row dataset and `sigma` 1 ≤ 2. -/
theorem highlight_anomalies_monotone_sigma_witness :
    (1 : ℚ) ≤ 2 ∧
      (highlight_anomalies dfW 2).length ≤ (highlight_anomalies dfW 1).length :=
  ⟨by norm_num, highlight_anomalies_monotone_sigma dfW 1 2 (by norm_num)⟩

theorem pairSum_pos (df : List Record) (hpos : ∀ r ∈ df, 0 < r.co2_tons)
    (f : Fuel) (z : Zone) (hex : ∃ r ∈ df, r.fuel_type = f ∧ r.zone = z) :
    0 < pairSum df f z := by
  rcases hex with ⟨r, hr, h1, h2⟩
  have hb : (decide (r.fuel_type = f) && decide (r.zone = z)) = true := by
    rw [Bool.and_eq_true, decide_eq_true_eq, decide_eq_true_eq]
    exact ⟨h1, h2⟩
  have hmem : r ∈ df.filter (fun r => decide (r.fuel_type = f) && decide (r.zone = z)) :=
    List.mem_filter.mpr ⟨hr, hb⟩
  unfold pairSum sumCo2
  apply sum_pos_of_forall_pos
  · intro hmap
    rw [List.map_eq_nil_iff] at hmap
    rw [hmap] at hmem
    cases hmem
  · intro x hx
    rcases List.mem_map.mp hx with ⟨y, hy, rfl⟩
    exact hpos y (List.mem_filter.mp hy).1

theorem pairSum_cent (df : List Record)
    (hcent : ∀ r ∈ df, ∃ n : ℤ, r.co2_tons = (n : ℚ) / 100) (f : Fuel) (z : Zone) :
    ∃ n : ℤ, pairSum df f z = (n : ℚ) / 100 := by
  unfold pairSum sumCo2
  apply sum_cent
  intro x hx
  rcases List.mem_map.mp hx with ⟨y, hy, rfl⟩
  exact hcent y (List.mem_filter.mp hy).1

theorem zoneTotalsKeys_ne_nil (df : List Record) (h : df ≠ []) :
    (zoneTotalsKeys df).isEmpty = false := by
  cases df with
  | nil => exact absurd rfl h
  | cons r rest =>
      have hmem : (r.fuel_type, r.zone) ∈ zoneTotalsKeys (r :: rest) :=
        (mem_zoneTotalsKeys _ _ _).mpr ⟨r, List.mem_cons_self _ _, rfl, rfl⟩
      cases hk : (zoneTotalsKeys (r :: rest)).isEmpty
      · rfl
      · rw [List.isEmpty_iff.mp hk] at hmem
        cases hmem

theorem mem_fuel_nodes (df : List Record) (f : Fuel) :
    f ∈ fuel_nodes df ↔ ∃ r ∈ df, r.fuel_type = f := by
  unfold fuel_nodes
  rw [mem_uniqueFirst, List.mem_map]
  constructor
  · rintro ⟨⟨f', z⟩, hk, rfl⟩
    rcases (mem_zoneTotalsKeys df f' z).mp hk with ⟨r, hr, h1, -⟩
    exact ⟨r, hr, h1⟩
  · rintro ⟨r, hr, rfl⟩
    exact ⟨(r.fuel_type, r.zone),
      (mem_zoneTotalsKeys df _ _).mpr ⟨r, hr, rfl, rfl⟩, rfl⟩

theorem idxOf_zone_tail (z : Zone) :
    idxOf (zoneEmissionLabel z) ["ECA Emissions", "Non-ECA Emissions"] < 2 := by
  cases z <;> decide

theorem zoneEmissionLabel_not_mem_fuelLabels (df : List Record) (z : Zone) :
    zoneEmissionLabel z ∉ (fuel_nodes df).map Fuel.label := by
  intro hmem
  rcases List.mem_map.mp hmem with ⟨f, -, hf⟩
  exact fuelLabel_ne_zoneEmissionLabel f z hf

theorem generate_sankey_data_of_ne (df : List Record)
    (hk : (zoneTotalsKeys df).isEmpty = false) :
    generate_sankey_data df =
      { nodes := sankeyNodes df
        sources := (zoneTotalsKeys df).map (fun p => idxOf p.1.label (sankeyNodes df))
        targets :=
          (zoneTotalsKeys df).map (fun p => idxOf (zoneEmissionLabel p.2) (sankeyNodes df))
        values := (zoneTotalsKeys df).map (fun p => pyRound (pairSum df p.1 p.2) 2) } := by
  unfold generate_sankey_data
  exact if_neg (by rw [hk]; exact Bool.false_ne_true)

/-- Claim C8 (confirmed under the record-model invariants of spec §3:
every `co2_tons` is positive — the synthesizer clips it into [4.5, 24] —
and an exact multiple of 0.01, since it is stored rounded to 2 decimals):
the flow decomposition carries exactly one edge per occurring (fuel,
zone) pair (first conjunct characterizes the edge index), each edge's
weight is the exact summed CO2 of its pair (the 2-decimal rounding of
line 187 is the identity on sums of hundredths), no emitted weight is
zero, and when no positive-weight pair exists the result is the
explicitly empty structure of line 178. -/
theorem sankey_edges_exact (df : List Record)
    (hpos : ∀ r ∈ df, 0 < r.co2_tons)
    (hcent : ∀ r ∈ df, ∃ n : ℤ, r.co2_tons = (n : ℚ) / 100) :
    (∀ f z, (f, z) ∈ zoneTotalsKeys df ↔ ∃ r ∈ df, r.fuel_type = f ∧ r.zone = z) ∧
    (generate_sankey_data df).values =
      (zoneTotalsKeys df).map (fun p => pairSum df p.1 p.2) ∧
    (∀ v ∈ (generate_sankey_data df).values, 0 < v) ∧
    ((¬ ∃ f z, 0 < pairSum df f z) →
      generate_sankey_data df =
        { nodes := [], sources := [], targets := [], values := [] }) := by
  have hvals : (generate_sankey_data df).values =
      (zoneTotalsKeys df).map (fun p => pairSum df p.1 p.2) := by
    cases hk : (zoneTotalsKeys df).isEmpty
    · rw [generate_sankey_data_of_ne df hk]
      apply List.map_congr_left
      intro p hp
      rcases p with ⟨f, z⟩
      exact pyRound_cent _ (pairSum_cent df hcent f z)
    · have hnil : zoneTotalsKeys df = [] := List.isEmpty_iff.mp hk
      unfold generate_sankey_data
      rw [if_pos (by rw [hk])]
      rw [hnil]
      rfl
  refine ⟨fun f z => mem_zoneTotalsKeys df f z, hvals, ?_, ?_⟩
  · intro v hv
    rw [hvals] at hv
    rcases List.mem_map.mp hv with ⟨⟨f, z⟩, hp, rfl⟩
    exact pairSum_pos df hpos f z ((mem_zoneTotalsKeys df f z).mp hp)
  · intro hno
    have hdf : df = [] := by
      cases df with
      | nil => rfl
      | cons r rest =>
          exact absurd
            ⟨r.fuel_type, r.zone,
              pairSum_pos _ hpos _ _ ⟨r, List.mem_cons_self _ _, rfl, rfl⟩⟩ hno
    rw [hdf]
    rfl

/-- Witness for C8: a concrete three-row dataset whose CO2 values (20,
20, 10) are positive integer-hundredths. -/
theorem sankey_edges_exact_witness :
    (∀ r ∈ dfS, 0 < r.co2_tons) ∧
    ((∀ f z, (f, z) ∈ zoneTotalsKeys dfS ↔ ∃ r ∈ dfS, r.fuel_type = f ∧ r.zone = z) ∧
     (generate_sankey_data dfS).values =
       (zoneTotalsKeys dfS).map (fun p => pairSum dfS p.1 p.2) ∧
     (∀ v ∈ (generate_sankey_data dfS).values, 0 < v) ∧
     ((¬ ∃ f z, 0 < pairSum dfS f z) →
       generate_sankey_data dfS =
         { nodes := [], sources := [], targets := [], values := [] })) := by
  have hc : ∀ r ∈ dfS, ∃ n : ℤ, r.co2_tons = (n : ℚ) / 100 := by
    intro r hr
    rcases List.mem_cons.mp hr with rfl | hr
    · exact ⟨2000, by norm_num [rTie0, sampleRecord]⟩
    rcases List.mem_cons.mp hr with rfl | hr
    · exact ⟨2000, by norm_num [rTie1, sampleRecord]⟩
    rcases List.mem_cons.mp hr with rfl | hr
    · exact ⟨1000, by norm_num [rLow, sampleRecord]⟩
    · cases hr
  exact ⟨by decide, sankey_edges_exact dfS (by decide) hc⟩

/-- Claim C10 (confirmed): for every non-empty dataset the node list is
the distinct occurring fuel types followed by exactly the two zone labels
(both present even when a zone has no records); every sources entry
indexes a fuel node (it is below the fuel-prefix length) and every
targets entry indexes a zone node (it lies in the two-slot zone suffix),
so all edge indices are in bounds of the node list. -/
theorem sankey_nodes_and_indices_valid (df : List Record) (h : df ≠ []) :
    (generate_sankey_data df).nodes =
      (fuel_nodes df).map Fuel.label ++ ["ECA Emissions", "Non-ECA Emissions"] ∧
    (fuel_nodes df).Nodup ∧
    (∀ f : Fuel, f ∈ fuel_nodes df ↔ ∃ r ∈ df, r.fuel_type = f) ∧
    (∀ s ∈ (generate_sankey_data df).sources, s < (fuel_nodes df).length) ∧
    (∀ t ∈ (generate_sankey_data df).targets,
      (fuel_nodes df).length ≤ t ∧ t < (generate_sankey_data df).nodes.length) := by
  have hk : (zoneTotalsKeys df).isEmpty = false := zoneTotalsKeys_ne_nil df h
  have hEq := generate_sankey_data_of_ne df hk
  refine ⟨by rw [hEq]; rfl, nodup_uniqueFirst _, mem_fuel_nodes df, ?_, ?_⟩
  · intro s hs
    rw [hEq] at hs
    rcases List.mem_map.mp hs with ⟨⟨f, z⟩, hp, rfl⟩
    rcases (mem_zoneTotalsKeys df f z).mp hp with ⟨r, hr, h1, -⟩
    have hf : f ∈ fuel_nodes df := (mem_fuel_nodes df f).mpr ⟨r, hr, h1⟩
    have hlbl : Fuel.label f ∈ (fuel_nodes df).map Fuel.label :=
      List.mem_map_of_mem _ hf
    rcases idxOf_append_left (Fuel.label f) ((fuel_nodes df).map Fuel.label)
      ["ECA Emissions", "Non-ECA Emissions"] hlbl with ⟨he, hlt⟩
    rw [List.length_map] at hlt
    rw [show sankeyNodes df =
      (fuel_nodes df).map Fuel.label ++ ["ECA Emissions", "Non-ECA Emissions"] from rfl]
    rw [he]
    exact hlt
  · intro t ht
    rw [hEq] at ht
    rcases List.mem_map.mp ht with ⟨⟨f, z⟩, hp, rfl⟩
    have hre := idxOf_append_right (zoneEmissionLabel z)
      ((fuel_nodes df).map Fuel.label) ["ECA Emissions", "Non-ECA Emissions"]
      (zoneEmissionLabel_not_mem_fuelLabels df z)
    rw [show sankeyNodes df =
      (fuel_nodes df).map Fuel.label ++ ["ECA Emissions", "Non-ECA Emissions"] from rfl]
    rw [hre, List.length_map]
    have hz := idxOf_zone_tail z
    constructor
    · exact Nat.le_add_right _ _
    · rw [hEq]
      simp only [List.length_append, List.length_map]
      have : (["ECA Emissions", "Non-ECA Emissions"] : List String).length = 2 := rfl
      rw [show sankeyNodes df =
        (fuel_nodes df).map Fuel.label ++ ["ECA Emissions", "Non-ECA Emissions"] from rfl]
      simp only [List.length_append, List.length_map, this]
      omega

/-- Witness for C10 at the concrete three-row dataset. -/
theorem sankey_nodes_and_indices_valid_witness :
    dfS ≠ [] ∧
    ((generate_sankey_data dfS).nodes =
      (fuel_nodes dfS).map Fuel.label ++ ["ECA Emissions", "Non-ECA Emissions"] ∧
     (fuel_nodes dfS).Nodup ∧
     (∀ f : Fuel, f ∈ fuel_nodes dfS ↔ ∃ r ∈ dfS, r.fuel_type = f) ∧
     (∀ s ∈ (generate_sankey_data dfS).sources, s < (fuel_nodes dfS).length) ∧
     (∀ t ∈ (generate_sankey_data dfS).targets,
       (fuel_nodes dfS).length ≤ t ∧ t < (generate_sankey_data dfS).nodes.length)) :=
  ⟨by decide, sankey_nodes_and_indices_valid dfS (by decide)⟩

end Emission
